import Mathlib

/-!
Shallow embedding of `src/zfstools/zflock.py` (zfs-tools, advisory locking
over a parallel directory tree via flock).

The repository is Python 2 code (its sibling `zsnap.py` indexes
`dict.keys()[0]`, which is Python-2 only).  Two Python-2 facts matter for
the embedding and are modelled faithfully:

* `os.open` raises `OSError` on failure; it never returns `-1`.  Hence the
  `if x != -1:` guards in `lock_and_run`, `list_locks` and `gc_locks` are
  always true when reached, and the `else` branch of `lock_and_run`
  (printing "failed to open") is unreachable.
* In Python 2, `IOError` and `OSError` are distinct classes (unified only in
  Python 3.3): an `except IOError:` clause does not catch the `OSError`
  raised by `os.open`.  `fcntl.flock` raises `IOError` on contention, which
  those clauses do catch.

External effects (directory open, flock, file write, subprocess exit) are
driven by an explicit environment record, and each function returns its
Python-level outcome (normal return, escaping `OSError`, or `SystemExit`
from `die`) together with the trace of filesystem-mutating / lock events
and the diagnostic messages it emits.
-/

namespace Zflock

/-- `LOCKDIR` constant from zflock.py line 20. -/
def LOCKDIR : String := "/var/lib/zfs-tools/zflock"

/-- `os.path.isabs` for POSIX paths: true iff the string starts with `"/"`.
Modelled on the character list of the string. -/
def isabs (s : String) : Bool :=
  match s.data with
  | [] => false
  | c :: _ => c = '/'

/-- Python's `s.endswith("/")`: true iff the last character is `'/'`.
Modelled on the character list of the string. -/
def endsWithSlash (s : String) : Bool :=
  match s.data.getLast? with
  | some c => c = '/'
  | none => false

/-- `os.path.join a b` for POSIX paths (posixpath.join with two arguments):
if `b` is absolute the result is `b`; otherwise `b` is appended to `a`,
inserting `"/"` unless `a` is empty or already ends with `"/"`. -/
def pathJoin (a b : String) : String :=
  if isabs b then b
  else if a = "" || endsWithSlash a then a ++ b
  else a ++ "/" ++ b

/-- Outcome of `die(message)` (zflock.py lines 22-24): a message on stderr
followed by `sys.exit(1)`, i.e. a `SystemExit` that the top-level
`except Exception` in `main` does not catch. -/
inductive Fatal : Type where
  | die (message : String)
deriving DecidableEq

/-- `lockpath_for` (zflock.py lines 26-29): reject absolute identifiers via
`die`, otherwise join onto `LOCKDIR`. -/
def lockpath_for (filesystem : String) : Except Fatal String :=
  if isabs filesystem then
    .error (.die ("invalid filesystem (absolute path): " ++ filesystem))
  else
    .ok (pathJoin LOCKDIR filesystem)

/-- `readme_for` (zflock.py lines 31-32). -/
def readme_for (lockpath : String) : String :=
  pathJoin lockpath "README"

/-- Python's `s.rstrip("\n")`: drop trailing newline characters. -/
def rstripNl (s : String) : String :=
  String.mk ((s.data.reverse.dropWhile (fun c => c = '\n')).reverse)

/-- `readme_comment` (zflock.py lines 34-40).  The file read is modelled by
its content: `some text` when the README is readable, `none` when opening
it raises `IOError` (absent or unreadable), in which case the comment is
the empty string. -/
def readme_comment (content : Option String) (pre : String) : String :=
  match content with
  | some text => pre ++ rstripNl text
  | none => ""

/-- How a function invocation ends at the Python level: a normal return, an
uncaught `OSError`/other `Exception` escaping the call (later caught by the
`except Exception` handler in `main`), or a `SystemExit` (from `die`),
which `except Exception` does not catch. -/
inductive PyResult (α : Type) : Type where
  | ret (a : α)
  | osError
  | systemExit (code : Nat)
deriving DecidableEq

/-- Filesystem-mutating and lock events, in program order. -/
inductive Event : Type where
  | makedirs (p : String)
  | openDir (p : String)
  | flockEx (p : String)
  | flockUn (p : String)
  | writeReadme (p : String) (text : String)
  | removeReadme (p : String)
  | rmdir (p : String)
  | runCmd (c : List String)
  | closeFd (p : String)
deriving DecidableEq

/-- Diagnostic messages: `print_failure` (stderr, unconditional),
`print_verbose` (stderr, only with `-v`), plain `print` to stdout in
`list_locks`, and the stderr line of `die`. -/
inductive Msg : Type where
  | failure (s : String)
  | verboseOnly (s : String)
  | stdout (s : String)
  | dieMsg (s : String)
deriving DecidableEq

/-- Command-line options of zflock (optparse defaults:
`list=False, gc=False, comment=None, verbose=False`). -/
structure Options : Type where
  list : Bool
  gc : Bool
  comment : Option String
  verbose : Bool
deriving DecidableEq

/-- Python truthiness of `options.comment`: `None` and the empty string are
falsy, so `if options.comment:` enters only for a non-empty string. -/
def commentTruthy (options : Options) : Bool :=
  match options.comment with
  | some c => c != ""
  | none => false

/-- Environment for one `lock_and_run` call: whether `os.open` on the lock
path succeeds, whether the non-blocking exclusive flock succeeds (i.e. the
lock is currently free), whether writing the README succeeds, the README
content currently on disk (`none` = absent/unreadable), and the exit
status `subprocess.call` returns for the guarded command. -/
structure FsEnv : Type where
  openOk : Bool
  flockFree : Bool
  writeOk : Bool
  readmeContent : Option String
  cmdExit : Int
deriving DecidableEq

/-- Observable outcome of `lock_and_run`: Python-level result, the event
trace, the messages emitted, and the README content after the call
(`none` = absent). -/
structure RunOut : Type where
  result : PyResult Bool
  events : List Event
  msgs : List Msg
  readmeAfter : Option String
deriving DecidableEq

/-- `lock_and_run` (zflock.py lines 48-86), with Python-2 semantics:

* `lockpath_for` may `die` (absolute path): `SystemExit 1`, no events.
* `os.makedirs` is attempted with failures swallowed (`except os.error`).
* `os.open` raises `OSError` when it fails; nothing catches it here, so it
  escapes `lock_and_run` — the `x != -1` test is always true otherwise and
  the `else: print_failure("failed to open ...")` branch is dead code.
* flock contention raises `IOError`, caught: report `failed to lock` with
  the current README comment, `ok = False`.
* with the lock held and a truthy comment, the README write may fail (bare
  `except`): report `failed to write README`, `ok = False`; on success the
  README content becomes the comment plus a newline.
* if still ok, run the command; `ok` becomes whether its exit status is 0,
  reporting `non-zero exit status` otherwise.
* `os.close(x)` runs on every path after a successful open. -/
def lock_and_run (env : FsEnv) (filesystem : String) (command : List String)
    (options : Options) : RunOut :=
  match lockpath_for filesystem with
  | .error (.die m) =>
      { result := .systemExit 1, events := [], msgs := [.dieMsg m],
        readmeAfter := env.readmeContent }
  | .ok lockpath =>
      let readme := readme_for lockpath
      if env.openOk then
        let ok₁ : Bool := env.flockFree
        let locked : Bool := ok₁
        let msgs₁ : List Msg :=
          if ok₁ then []
          else [.failure ("failed to lock " ++ filesystem ++
                  readme_comment env.readmeContent " # ")]
        let commentWritten : Bool := ok₁ && commentTruthy options && env.writeOk
        let ok₂ : Bool := ok₁ && (!commentTruthy options || env.writeOk)
        let ev₂ : List Event :=
          if commentWritten then
            [.writeReadme readme ((options.comment.getD "") ++ "\n")]
          else []
        let msgs₂ : List Msg :=
          if ok₁ && commentTruthy options && !env.writeOk then
            [.failure ("failed to write README for " ++ filesystem)]
          else []
        let ok₃ : Bool := ok₂ && (env.cmdExit == 0)
        let ev₃ : List Event := if ok₂ then [.runCmd command] else []
        let msgs₃ : List Msg :=
          if ok₂ then
            [.verboseOnly ("locked " ++ filesystem)] ++
            (if env.cmdExit == 0 then []
             else [.failure ("non-zero exit status from " ++
                     String.intercalate " " command)])
          else []
        let msgs₄ : List Msg :=
          if locked then [.verboseOnly ("unlocked " ++ filesystem)] else []
        { result := .ret ok₃,
          events := [.makedirs lockpath, .openDir lockpath, .flockEx lockpath]
                      ++ ev₂ ++ ev₃ ++ [.closeFd lockpath],
          msgs := msgs₁ ++ msgs₂ ++ msgs₃ ++ msgs₄,
          readmeAfter :=
            if commentWritten then some ((options.comment.getD "") ++ "\n")
            else env.readmeContent }
      else
        { result := .osError,
          events := [.makedirs lockpath, .openDir lockpath],
          msgs := [],
          readmeAfter := env.readmeContent }

/-- One directory enumerated by the `os.walk` of `list_locks`/`gc_locks`:
its identifier relative to `LOCKDIR`, whether `os.open` on it succeeds,
whether the non-blocking exclusive flock succeeds (it is currently free),
and the README content visible to `readme_comment`. -/
structure DirEntry : Type where
  name : String
  openOk : Bool
  flockFree : Bool
  readmeContent : Option String
deriving DecidableEq

/-- Body of the inner loop of `list_locks` (zflock.py lines 90-101) for one
directory, with Python-2 semantics: a failing `os.open` raises `OSError`,
which the `except IOError:` clause does not catch, so it escapes the whole
scan.  On a successful open, flock contention raises `IOError` (caught:
the entry is printed as held, with its README comment); flock success is
immediately followed by `fcntl.flock(x, LOCK_UN)` and nothing is printed. -/
def listStep (e : DirEntry) : PyResult Unit × List Event × List Msg :=
  let lockpath := pathJoin LOCKDIR e.name
  if e.openOk then
    if e.flockFree then
      (.ret (), [.openDir lockpath, .flockEx lockpath, .flockUn lockpath], [])
    else
      (.ret (), [.openDir lockpath, .flockEx lockpath],
        [.stdout (e.name ++ readme_comment e.readmeContent " # ")])
  else
    (.osError, [.openDir lockpath], [])

/-- `list_locks` (zflock.py lines 88-102) over the sequence of directories
the tree walk enumerates.  Entries are processed in order; an `OSError`
escaping `listStep` aborts the remainder of the scan (it propagates out of
`list_locks` to `main`).  On normal completion the function returns True. -/
def list_locks : List DirEntry → PyResult Bool × List Event × List Msg
  | [] => (.ret true, [], [])
  | e :: rest =>
    match (listStep e).1 with
    | .ret _ =>
      ((list_locks rest).1,
       (listStep e).2.1 ++ (list_locks rest).2.1,
       (listStep e).2.2 ++ (list_locks rest).2.2)
    | .osError => (.osError, (listStep e).2.1, (listStep e).2.2)
    | .systemExit c => (.systemExit c, (listStep e).2.1, (listStep e).2.2)

/-- One directory for `gc_locks`: as `DirEntry`, but `held` is the flock
state (`held = true` means the probe fails) and `rawEntries` lists the raw
directory entries, among which `"README"` may appear. -/
structure GcDir : Type where
  name : String
  openOk : Bool
  held : Bool
  rawEntries : List String
  readmeContent : Option String
deriving DecidableEq

/-- Observable outcome of one `gc_locks` loop body: Python-level result,
events, messages, whether the directory was removed, and its raw entries
afterwards (unchanged when it was not touched). -/
structure GcOut : Type where
  result : PyResult Unit
  events : List Event
  msgs : List Msg
  removed : Bool
  entriesAfter : List String
deriving DecidableEq

/-- Body of the inner loop of `gc_locks` (zflock.py lines 106-126) for one
directory, with Python-2 semantics (failing `os.open` raises `OSError`,
uncaught here).  When the probe succeeds (open ok, not held):
`os.remove(readme)` is attempted with `OSError` ignored — it succeeds iff
`"README"` is among the raw entries, removing it; then `os.rmdir` is
attempted with all failures ignored — it succeeds iff no raw entries
remain, in which case a verbose `removed` line is printed; finally
`fcntl.flock(x, LOCK_UN)`.  When the probe hits contention (`IOError`,
caught) the directory is untouched and a verbose `not removing` line with
the README comment is printed. -/
def gcStep (d : GcDir) : GcOut :=
  let lockpath := pathJoin LOCKDIR d.name
  if d.openOk then
    if d.held then
      { result := .ret (),
        events := [.openDir lockpath, .flockEx lockpath],
        msgs := [.verboseOnly ("not removing " ++ d.name ++
                   readme_comment d.readmeContent " # ")],
        removed := false, entriesAfter := d.rawEntries }
    else
      let entriesLeft := d.rawEntries.filter (fun s => s != "README")
      let evRm : List Event :=
        if d.rawEntries.contains "README" then [.removeReadme (readme_for lockpath)]
        else []
      if entriesLeft = [] then
        { result := .ret (),
          events := [.openDir lockpath, .flockEx lockpath] ++ evRm ++
                      [.rmdir lockpath, .flockUn lockpath],
          msgs := [.verboseOnly ("removed " ++ lockpath)],
          removed := true, entriesAfter := [] }
      else
        { result := .ret (),
          events := [.openDir lockpath, .flockEx lockpath] ++ evRm ++
                      [.flockUn lockpath],
          msgs := [],
          removed := false, entriesAfter := entriesLeft }
  else
    { result := .osError, events := [.openDir lockpath], msgs := [],
      removed := false, entriesAfter := d.rawEntries }

/-- `gc_locks` (zflock.py lines 104-127) over the directories enumerated by
the bottom-up tree walk; an escaping `OSError` aborts the remainder.  On
normal completion the function returns True. -/
def gc_locks : List GcDir → PyResult Bool × List Event × List Msg
  | [] => (.ret true, [], [])
  | d :: rest =>
    match (gcStep d).result with
    | .ret _ =>
      ((gc_locks rest).1,
       (gcStep d).events ++ (gc_locks rest).2.1,
       (gcStep d).msgs ++ (gc_locks rest).2.2)
    | .osError => (.osError, (gcStep d).events, (gcStep d).msgs)
    | .systemExit c => (.systemExit c, (gcStep d).events, (gcStep d).msgs)

/-- The filesystem/lock-tree state `main` runs against: the environment of
a single acquisition and the directory sequences the two scans enumerate. -/
structure World : Type where
  env : FsEnv
  listEntries : List DirEntry
  gcDirs : List GcDir
deriving DecidableEq

/-- Exit status of `main` (zflock.py lines 129-161).  `args` is `sys.argv`
(so `args.length = 1` means no positional arguments).  `ok` starts False;
the dispatch runs under `try ... except Exception`, which converts an
escaping `OSError` into `sys.exit(1)` but does not catch the `SystemExit`
of `die`, whose code (1) becomes the process status.  In list/gc mode with
extra positional arguments `ok` stays False (exit 1); with neither mode
selected and fewer than 3 argv entries, `parser.print_usage()` runs and
`ok = True`, so the process exits 0.  Finally `if not ok: sys.exit(1)`. -/
def mainExit (w : World) (options : Options) (args : List String) : Nat :=
  if options.list then
    if args.length = 1 then
      match (list_locks w.listEntries).1 with
      | .ret ok => if ok then 0 else 1
      | .osError => 1
      | .systemExit c => c
    else 1
  else if options.gc then
    if args.length = 1 then
      match (gc_locks w.gcDirs).1 with
      | .ret ok => if ok then 0 else 1
      | .osError => 1
      | .systemExit c => c
    else 1
  else if 3 ≤ args.length then
    match (lock_and_run w.env (args.getD 1 "") (args.drop 2) options).result with
    | .ret ok => if ok then 0 else 1
    | .osError => 1
    | .systemExit c => c
  else 0

/-! ### Helper lemmas -/

theorem string_data_append (a b : String) : (a ++ b).data = a.data ++ b.data := rfl

theorem string_append_left_cancel {s a b : String} (h : s ++ a = s ++ b) : a = b := by
  have h2 : (s ++ a).data = (s ++ b).data := congrArg String.data h
  rw [string_data_append, string_data_append] at h2
  have h3 := List.append_cancel_left h2
  cases a
  cases b
  simp only at h3
  simp [h3]

theorem isabs_append_slash (a b : String) (ha : isabs a = false) (h0 : a ≠ "") :
    isabs (a ++ "/" ++ b) = false := by
  rcases a with ⟨l⟩
  cases l with
  | nil => exact absurd rfl h0
  | cons c t =>
    simp only [isabs, string_data_append] at ha ⊢
    simpa using ha

theorem lockpath_for_rel (fs : String) (h : isabs fs = false) :
    lockpath_for fs = .ok (LOCKDIR ++ "/" ++ fs) := by
  have h1 : ¬ (LOCKDIR = "") := by decide
  have h2 : endsWithSlash LOCKDIR = false := by decide
  simp [lockpath_for, h, pathJoin, h1, h2]

theorem lock_and_run_abs (env : FsEnv) (fs : String) (command : List String)
    (options : Options) (h : isabs fs = true) :
    lock_and_run env fs command options =
      { result := .systemExit 1, events := [],
        msgs := [.dieMsg ("invalid filesystem (absolute path): " ++ fs)],
        readmeAfter := env.readmeContent } := by
  simp [lock_and_run, lockpath_for, h]

/-! ### Claim theorems -/

/-- Claim C9: `lockpath_for` is a pure function of its argument (it is a
Lean function, so determinism and absence of side effects are intrinsic to
the embedding; the code performs no I/O there).  Distinct valid relative
identifiers map to distinct lock paths, and the mapping is
path-prefix-stable: the lock path of `a ++ "/" ++ b` is the lock path of
`a` followed by `"/" ++ b`. -/
theorem lockpath_for_injective_and_hierarchical :
    (∀ a b pa pb, lockpath_for a = .ok pa → lockpath_for b = .ok pb →
       pa = pb → a = b)
  ∧ (∀ a b, isabs a = false → a ≠ "" →
       lockpath_for (a ++ "/" ++ b) = .ok ((pathJoin LOCKDIR a) ++ "/" ++ b)) := by
  constructor
  · intro a b pa pb hpa hpb hab
    by_cases ha : isabs a = true
    · simp [lockpath_for, ha] at hpa
    · by_cases hb : isabs b = true
      · simp [lockpath_for, hb] at hpb
      · rw [lockpath_for_rel a (by simpa using ha)] at hpa
        rw [lockpath_for_rel b (by simpa using hb)] at hpb
        have h1 : LOCKDIR ++ "/" ++ a = pa := by
          simpa using hpa
        have h2 : LOCKDIR ++ "/" ++ b = pb := by
          simpa using hpb
        exact string_append_left_cancel (h1.trans (hab.trans h2.symm))
  · intro a b ha h0
    have habs := isabs_append_slash a b ha h0
    rw [lockpath_for_rel _ habs]
    have h1 : ¬ (LOCKDIR = "") := by decide
    have h2 : endsWithSlash LOCKDIR = false := by decide
    simp [pathJoin, ha, h1, h2, String.append_assoc]

/-- Witness for C9 at the concrete identifiers `"a"` and `"b"`. -/
theorem lockpath_for_injective_and_hierarchical_witness :
    ("a" : String) = "a" ∧
    lockpath_for ("a" ++ "/" ++ "b") = .ok ((pathJoin LOCKDIR "a") ++ "/" ++ "b") := by
  constructor
  · exact lockpath_for_injective_and_hierarchical.1 "a" "a"
      (LOCKDIR ++ "/" ++ "a") (LOCKDIR ++ "/" ++ "a")
      (lockpath_for_rel "a" (by decide)) (lockpath_for_rel "a" (by decide)) rfl
  · exact lockpath_for_injective_and_hierarchical.2 "a" "b" (by decide) (by decide)

/-- Claim C7: an absolute resource identifier makes `lock_and_run` die
before any filesystem I/O — no events at all (no makedirs, no open, no
flock, no README write, no subprocess), `SystemExit 1` — and the process
exit status is 1 (the `SystemExit` is not caught by `except Exception`). -/
theorem absolute_identifier_rejected_before_io :
    (∀ env fs command options, isabs fs = true →
       lock_and_run env fs command options =
         { result := .systemExit 1, events := [],
           msgs := [.dieMsg ("invalid filesystem (absolute path): " ++ fs)],
           readmeAfter := env.readmeContent })
  ∧ (∀ w options args, options.list = false → options.gc = false →
       3 ≤ args.length → isabs (args.getD 1 "") = true →
       mainExit w options args = 1) := by
  constructor
  · exact fun env fs c o h => lock_and_run_abs env fs c o h
  · intro w options args h1 h2 h3 h4
    have h := lock_and_run_abs w.env (args.getD 1 "") (args.drop 2) options h4
    unfold mainExit
    rw [if_neg (by simp [h1]), if_neg (by simp [h2]), if_pos h3, h]

/-- Witness for C7 at the absolute identifier `"/etc/passwd"`. -/
theorem absolute_identifier_rejected_before_io_witness :
    lock_and_run ⟨true, true, true, none, 0⟩ "/etc/passwd" ["true"]
        ⟨false, false, none, false⟩ =
      { result := .systemExit 1, events := [],
        msgs := [.dieMsg ("invalid filesystem (absolute path): /etc/passwd")],
        readmeAfter := none } ∧
    mainExit ⟨⟨true, true, true, none, 0⟩, [], []⟩ ⟨false, false, none, false⟩
      ["zflock", "/etc/passwd", "true"] = 1 := by
  constructor
  · exact absolute_identifier_rejected_before_io.1
      ⟨true, true, true, none, 0⟩ "/etc/passwd" ["true"]
      ⟨false, false, none, false⟩ (by decide)
  · exact absolute_identifier_rejected_before_io.2
      ⟨⟨true, true, true, none, 0⟩, [], []⟩ ⟨false, false, none, false⟩
      ["zflock", "/etc/passwd", "true"] rfl rfl (by decide) (by decide)

/-- Claim C3: when the exclusive lock was obtained and a (truthy) comment
was supplied but the README write fails, `lock_and_run` reports the
failure, does not run the guarded command, returns overall failure, and
still closes the lock handle (releasing the lock) before returning. -/
theorem readme_write_failure_releases (env : FsEnv) (fs : String)
    (command : List String) (options : Options) (c : String)
    (hrel : isabs fs = false) (hc : options.comment = some c) (hc0 : c ≠ "")
    (hopen : env.openOk = true) (hfree : env.flockFree = true)
    (hw : env.writeOk = false) :
    (lock_and_run env fs command options).result = .ret false ∧
    (∀ cs, Event.runCmd cs ∉ (lock_and_run env fs command options).events) ∧
    Event.closeFd (LOCKDIR ++ "/" ++ fs) ∈
      (lock_and_run env fs command options).events ∧
    Msg.failure ("failed to write README for " ++ fs) ∈
      (lock_and_run env fs command options).msgs := by
  have hl := lockpath_for_rel fs hrel
  have hct : commentTruthy options = true := by
    simp [commentTruthy, hc, hc0]
  simp [lock_and_run, hl, hopen, hfree, hw, hct]

/-- Witness for C3: acquiring `pool/c` with comment `nightly backup` while
the README write fails. -/
theorem readme_write_failure_releases_witness :
    (lock_and_run ⟨true, true, false, none, 0⟩ "pool/c" ["false"]
        ⟨false, false, some "nightly backup", false⟩).result = .ret false ∧
    Event.runCmd ["false"] ∉
      (lock_and_run ⟨true, true, false, none, 0⟩ "pool/c" ["false"]
        ⟨false, false, some "nightly backup", false⟩).events ∧
    Event.closeFd (LOCKDIR ++ "/" ++ "pool/c") ∈
      (lock_and_run ⟨true, true, false, none, 0⟩ "pool/c" ["false"]
        ⟨false, false, some "nightly backup", false⟩).events ∧
    Msg.failure ("failed to write README for " ++ "pool/c") ∈
      (lock_and_run ⟨true, true, false, none, 0⟩ "pool/c" ["false"]
        ⟨false, false, some "nightly backup", false⟩).msgs := by
  have h := readme_write_failure_releases ⟨true, true, false, none, 0⟩ "pool/c"
    ["false"] ⟨false, false, some "nightly backup", false⟩ "nightly backup"
    (by decide) rfl (by decide) rfl rfl rfl
  exact ⟨h.1, h.2.1 ["false"], h.2.2.1, h.2.2.2⟩

/-- Claim C8: when the lock was obtained and the README step succeeded (or
no comment was requested), the overall result of `lock_and_run` is true
iff the guarded command exits 0; the command is executed, and on a
non-zero exit the failing command is reported. -/
theorem guarded_command_result (env : FsEnv) (fs : String)
    (command : List String) (options : Options)
    (hrel : isabs fs = false) (hopen : env.openOk = true)
    (hfree : env.flockFree = true)
    (hann : options.comment = none ∨ env.writeOk = true) :
    ((lock_and_run env fs command options).result = .ret true ↔ env.cmdExit = 0) ∧
    Event.runCmd command ∈ (lock_and_run env fs command options).events ∧
    (env.cmdExit ≠ 0 →
      Msg.failure ("non-zero exit status from " ++ String.intercalate " " command) ∈
        (lock_and_run env fs command options).msgs) := by
  have hl := lockpath_for_rel fs hrel
  have hct : commentTruthy options = false ∨ env.writeOk = true := by
    rcases hann with h | h
    · exact Or.inl (by simp [commentTruthy, h])
    · exact Or.inr h
  rcases hct with h | h <;>
    by_cases hw : commentTruthy options = true <;>
      by_cases hz : env.cmdExit = 0 <;>
        simp [lock_and_run, hl, hopen, hfree, h, hw, hz]

/-- Witness for C8: acquiring `pool/a` with no comment, command exiting 3. -/
theorem guarded_command_result_witness :
    ((lock_and_run ⟨true, true, true, none, 3⟩ "pool/a" ["false"]
        ⟨false, false, none, false⟩).result = .ret true ↔ (3 : Int) = 0) ∧
    Event.runCmd ["false"] ∈
      (lock_and_run ⟨true, true, true, none, 3⟩ "pool/a" ["false"]
        ⟨false, false, none, false⟩).events ∧
    ((3 : Int) ≠ 0 →
      Msg.failure ("non-zero exit status from " ++ String.intercalate " " ["false"]) ∈
        (lock_and_run ⟨true, true, true, none, 3⟩ "pool/a" ["false"]
          ⟨false, false, none, false⟩).msgs) :=
  guarded_command_result ⟨true, true, true, none, 3⟩ "pool/a" ["false"]
    ⟨false, false, none, false⟩ (by decide) rfl rfl (Or.inl rfl)

/-- Claim C10: an acquisition with no comment supplied never writes,
truncates, or removes the README: the README content after the call is
exactly what it was before, and the event trace contains no README
mutation whatsoever. -/
theorem no_comment_preserves_readme (env : FsEnv) (fs : String)
    (command : List String) (options : Options)
    (hc : options.comment = none) :
    (lock_and_run env fs command options).readmeAfter = env.readmeContent ∧
    (∀ p t, Event.writeReadme p t ∉ (lock_and_run env fs command options).events) ∧
    (∀ p, Event.removeReadme p ∉ (lock_and_run env fs command options).events) := by
  have hct : commentTruthy options = false := by simp [commentTruthy, hc]
  by_cases habs : isabs fs = true
  · simp [lock_and_run_abs env fs command options habs]
  · have hl := lockpath_for_rel fs (by simpa using habs)
    cases hopen : env.openOk <;> cases hfree : env.flockFree <;>
      by_cases hz : (env.cmdExit == 0) = true <;>
        simp [lock_and_run, hl, hct, hopen, hfree, hz]

/-- Witness for C10: a comment-less acquisition over a README written by a
previous holder leaves that README in place. -/
theorem no_comment_preserves_readme_witness :
    (lock_and_run ⟨true, true, true, some "old comment\n", 0⟩ "pool/a" ["true"]
        ⟨false, false, none, false⟩).readmeAfter = some "old comment\n" ∧
    Event.writeReadme (readme_for (LOCKDIR ++ "/" ++ "pool/a")) "x" ∉
      (lock_and_run ⟨true, true, true, some "old comment\n", 0⟩ "pool/a" ["true"]
        ⟨false, false, none, false⟩).events ∧
    Event.removeReadme (readme_for (LOCKDIR ++ "/" ++ "pool/a")) ∉
      (lock_and_run ⟨true, true, true, some "old comment\n", 0⟩ "pool/a" ["true"]
        ⟨false, false, none, false⟩).events := by
  have h := no_comment_preserves_readme ⟨true, true, true, some "old comment\n", 0⟩
    "pool/a" ["true"] ⟨false, false, none, false⟩ rfl
  exact ⟨h.1, h.2.1 _ "x", h.2.2 _⟩

/-- Claim C2: release is total.  (a) `lock_and_run`: on every path after a
successful open — success, contention, README-write failure, or guarded
command failure — the handle is closed (`os.close`) before returning.
(b)/(c) in a List or Garbage-collect pass, every reachable entry whose
probe succeeds (open and flock both succeed) has an explicit
`flock(LOCK_UN)` release recorded in that same pass's event trace. -/
theorem release_is_total :
    (∀ env fs command options lockpath, lockpath_for fs = .ok lockpath →
       env.openOk = true →
       Event.closeFd lockpath ∈ (lock_and_run env fs command options).events)
  ∧ (∀ pre e post, (∀ e₀ ∈ pre, e₀.openOk = true) →
       e.openOk = true → e.flockFree = true →
       Event.flockUn (pathJoin LOCKDIR e.name) ∈
         (list_locks (pre ++ e :: post)).2.1)
  ∧ (∀ pre d post, (∀ d₀ ∈ pre, d₀.openOk = true) →
       d.openOk = true → d.held = false →
       Event.flockUn (pathJoin LOCKDIR d.name) ∈
         (gc_locks (pre ++ d :: post)).2.1) := by
  refine ⟨?_, ?_, ?_⟩
  · intro env fs command options lockpath hl hopen
    simp [lock_and_run, hl, hopen]
  · intro pre e post hpre hopen hfree
    induction pre with
    | nil => simp [list_locks, listStep, hopen, hfree]
    | cons p rest ih =>
      have hp : p.openOk = true := hpre p (by simp)
      have ihm := ih (fun e₀ h => hpre e₀ (by simp [h]))
      cases hpf : p.flockFree <;>
        simp [list_locks, listStep, hp, hpf, ihm]
  · intro pre d post hpre hopen hheld
    induction pre with
    | nil =>
      by_cases hemp : d.rawEntries.filter (fun s => s != "README") = [] <;>
        simp [gc_locks, gcStep, hopen, hheld, hemp]
    | cons p rest ih =>
      have hp : p.openOk = true := hpre p (by simp)
      have ihm := ih (fun d₀ h => hpre d₀ (by simp [h]))
      cases hph : p.held <;>
        by_cases hemp : p.rawEntries.filter (fun s => s != "README") = [] <;>
          simp [gc_locks, gcStep, hp, hph, hemp, ihm]

/-- Witness for C2: a contended acquisition still closes; a free entry in a
list pass and a free non-empty directory in a gc pass are both unlocked. -/
theorem release_is_total_witness :
    Event.closeFd (LOCKDIR ++ "/" ++ "pool/a") ∈
      (lock_and_run ⟨true, false, true, none, 0⟩ "pool/a" ["true"]
        ⟨false, false, none, false⟩).events ∧
    Event.flockUn (pathJoin LOCKDIR "pool/b") ∈
      (list_locks [⟨"pool/b", true, true, none⟩]).2.1 ∧
    Event.flockUn (pathJoin LOCKDIR "pool/c") ∈
      (gc_locks [⟨"pool/c", true, false, ["x"], none⟩]).2.1 := by
  refine ⟨?_, ?_, ?_⟩
  · exact release_is_total.1 ⟨true, false, true, none, 0⟩ "pool/a" ["true"]
      ⟨false, false, none, false⟩ _ (lockpath_for_rel "pool/a" (by decide)) rfl
  · exact release_is_total.2.1 [] ⟨"pool/b", true, true, none⟩ [] (by simp) rfl rfl
  · exact release_is_total.2.2 [] ⟨"pool/c", true, false, ["x"], none⟩ [] (by simp) rfl rfl

/-- Claim C6: in a gc pass a directory is removed iff its probe succeeds
(open and flock both succeed, i.e. it is unheld at probe time) and it
contains no raw entries other than its README; every directory whose probe
hits contention (held) is left entirely untouched, with exactly one
verbose-only report that it was left in place. -/
theorem gc_removes_iff_unheld_and_empty (d : GcDir) :
    ((gcStep d).removed = true ↔
       (d.openOk = true ∧ d.held = false ∧
        d.rawEntries.filter (fun s => s != "README") = []))
  ∧ (d.openOk = true → d.held = true →
       (gcStep d).entriesAfter = d.rawEntries ∧
       (gcStep d).removed = false ∧
       (∀ p, Event.removeReadme p ∉ (gcStep d).events) ∧
       (∀ p, Event.rmdir p ∉ (gcStep d).events) ∧
       (gcStep d).msgs = [.verboseOnly ("not removing " ++ d.name ++
           readme_comment d.readmeContent " # ")]) := by
  cases hopen : d.openOk <;> cases hheld : d.held <;>
    by_cases hemp : d.rawEntries.filter (fun s => s != "README") = [] <;>
      simp [gcStep, hopen, hheld, hemp]

/-- Witness for C6: a held directory `pool/d` is left untouched and only
reported in verbose mode. -/
theorem gc_removes_iff_unheld_and_empty_witness :
    (gcStep ⟨"pool/d", true, true, ["README"], some "busy\n"⟩).entriesAfter =
      ["README"] ∧
    (gcStep ⟨"pool/d", true, true, ["README"], some "busy\n"⟩).removed = false ∧
    Event.removeReadme (readme_for (pathJoin LOCKDIR "pool/d")) ∉
      (gcStep ⟨"pool/d", true, true, ["README"], some "busy\n"⟩).events ∧
    Event.rmdir (pathJoin LOCKDIR "pool/d") ∉
      (gcStep ⟨"pool/d", true, true, ["README"], some "busy\n"⟩).events ∧
    (gcStep ⟨"pool/d", true, true, ["README"], some "busy\n"⟩).msgs =
      [.verboseOnly ("not removing " ++ "pool/d" ++
        readme_comment (some "busy\n") " # ")] := by
  have h := (gc_removes_iff_unheld_and_empty
    ⟨"pool/d", true, true, ["README"], some "busy\n"⟩).2 rfl rfl
  exact ⟨h.1, h.2.1, h.2.2.1 _, h.2.2.2.1 _, h.2.2.2.2⟩

/-- Claim C1 is violated by the code (a slip, see the module comment): in a
list pass, an entry whose open fails raises `OSError`, which the
`except IOError:` clause of `list_locks` does not catch in Python 2; the
scan aborts there — a later, genuinely held entry is never probed nor
reported — and `main` converts the escaped exception into exit status 1,
instead of skipping the failing entry and continuing as the spec states. -/
theorem list_open_failure_aborts_scan :
    list_locks [⟨"pool/gone", false, true, none⟩,
                ⟨"pool/held", true, false, some "busy\n"⟩] =
      (.osError, [.openDir "/var/lib/zfs-tools/zflock/pool/gone"], []) ∧
    mainExit ⟨⟨true, true, true, none, 0⟩,
        [⟨"pool/gone", false, true, none⟩,
         ⟨"pool/held", true, false, some "busy\n"⟩], []⟩
      ⟨true, false, none, false⟩ ["zflock"] = 1 := by
  exact ⟨rfl, rfl⟩

/-- Claim C4 is violated by the code (dead branch, see the module comment):
`os.open` raises `OSError` instead of returning -1, so the
`failed to open` report in the `else` branch of `lock_and_run` is
unreachable.  On an open failure `lock_and_run` emits no message at all
and the exception escapes to `main`'s generic `except Exception` handler,
which exits 1.  No further steps are performed (no flock attempt, no
README write, no command execution), as the event trace shows. -/
theorem open_failure_hits_generic_handler :
    lock_and_run ⟨false, true, true, none, 0⟩ "pool/a" ["true"]
        ⟨false, false, none, false⟩ =
      { result := .osError,
        events := [.makedirs "/var/lib/zfs-tools/zflock/pool/a",
                   .openDir "/var/lib/zfs-tools/zflock/pool/a"],
        msgs := [], readmeAfter := none } ∧
    mainExit ⟨⟨false, true, true, none, 0⟩, [], []⟩ ⟨false, false, none, false⟩
      ["zflock", "pool/a", "true"] = 1 := by
  exact ⟨rfl, rfl⟩

/-- Claim C5 counterexample: `zflock pool/a` — acquire mode selected by
default, with a filesystem argument but no command, a malformed
invocation — takes the `parser.print_usage(); ok = True` branch of `main`
and exits 0, not non-zero as the claim states. -/
theorem malformed_acquire_invocation_exits_zero :
    mainExit ⟨⟨true, true, true, none, 0⟩, [], []⟩
      ⟨false, false, none, false⟩ ["zflock", "pool/a"] = 0 := rfl

/-- Helper: `mainExit` in acquire-and-run mode reduces to the dispatch on
the result of `lock_and_run`. -/
theorem mainExit_acquire (w : World) (options : Options) (args : List String)
    (h1 : options.list = false) (h2 : options.gc = false)
    (h3 : 3 ≤ args.length) :
    mainExit w options args =
      match (lock_and_run w.env (args.getD 1 "") (args.drop 2) options).result with
      | .ret ok => if ok then 0 else 1
      | .osError => 1
      | .systemExit c => c := by
  unfold mainExit
  rw [if_neg (by simp [h1]), if_neg (by simp [h2]), if_pos h3]

/-- Claim C5 (amended): the process exit status is zero on overall success
and non-zero on contention, open failure, README-write failure, non-zero
guarded-command exit, and extra positional arguments in list/gc mode; but
an acquire invocation with too few positional arguments prints usage and
exits zero. -/
theorem exit_status_characterization (w : World) (options : Options)
    (args : List String) :
    (options.list = false → options.gc = false → 3 ≤ args.length →
       isabs (args.getD 1 "") = false →
       ((w.env.openOk = false → mainExit w options args = 1)
      ∧ (w.env.openOk = true → w.env.flockFree = false →
           mainExit w options args = 1)
      ∧ (w.env.openOk = true → w.env.flockFree = true →
           commentTruthy options = true → w.env.writeOk = false →
           mainExit w options args = 1)
      ∧ (w.env.openOk = true → w.env.flockFree = true →
           (commentTruthy options = false ∨ w.env.writeOk = true) →
           (mainExit w options args = 0 ↔ w.env.cmdExit = 0))))
  ∧ (options.list = true → args.length ≠ 1 → mainExit w options args = 1)
  ∧ (options.list = false → options.gc = true → args.length ≠ 1 →
       mainExit w options args = 1)
  ∧ (options.list = false → options.gc = false → args.length < 3 →
       mainExit w options args = 0) := by
  refine ⟨?_, ?_, ?_, ?_⟩
  · intro h1 h2 h3 h4
    rw [mainExit_acquire w options args h1 h2 h3]
    generalize args.getD 1 "" = fs at h4 ⊢
    have hl := lockpath_for_rel _ h4
    refine ⟨?_, ?_, ?_, ?_⟩
    · intro hopen
      simp [lock_and_run, hl, hopen]
    · intro hopen hfree
      simp [lock_and_run, hl, hopen, hfree]
    · intro hopen hfree hct hw
      simp [lock_and_run, hl, hopen, hfree, hct, hw]
    · intro hopen hfree hann
      rcases hann with h | h <;>
        by_cases hw : commentTruthy options = true <;>
          by_cases hz : w.env.cmdExit = 0 <;>
            simp [lock_and_run, hl, hopen, hfree, h, hw, hz]
  · intro h1 hlen
    unfold mainExit
    rw [if_pos h1, if_neg hlen]
  · intro h1 h2 hlen
    unfold mainExit
    rw [if_neg (by simp [h1]), if_pos h2, if_neg hlen]
  · intro h1 h2 hlen
    unfold mainExit
    rw [if_neg (by simp [h1]), if_neg (by simp [h2]),
        if_neg (by omega : ¬ 3 ≤ args.length)]

/-- Witness for the amended C5: a contended acquisition exits 1; a bare
`zflock` invocation exits 0. -/
theorem exit_status_characterization_witness :
    mainExit ⟨⟨true, false, true, none, 0⟩, [], []⟩ ⟨false, false, none, false⟩
      ["zflock", "pool/a", "true"] = 1 ∧
    mainExit ⟨⟨true, true, true, none, 0⟩, [], []⟩ ⟨false, false, none, false⟩
      ["zflock"] = 0 := by
  constructor
  · exact ((exit_status_characterization ⟨⟨true, false, true, none, 0⟩, [], []⟩
      ⟨false, false, none, false⟩ ["zflock", "pool/a", "true"]).1
      rfl rfl (by decide) (by decide)).2.1 rfl rfl
  · exact (exit_status_characterization ⟨⟨true, true, true, none, 0⟩, [], []⟩
      ⟨false, false, none, false⟩ ["zflock"]).2.2.2 rfl rfl (by decide)

end Zflock
